import Mathlib

/-!
Verification of `serve-web.py`, the single source file of the repository:
a minimal HTTP server that serves static files for GET requests under the
`/web/` prefix and answers every POST under the `/api/` prefix with a fixed
503 JSON stub.  Request paths are embedded as lists of characters, the
filesystem as a partial map from resolved paths to file contents, and each
handler as a pure function from its inputs to a response record.
-/

namespace Alfred

/-- An HTTP request path, as the character sequence the handler sees. -/
abbrev Path := List Char

/-- Coerce a string literal to a `Path`. -/
def str (s : String) : Path := s.data

/-- `PORT = 8080` (serve-web.py line 13). -/
def PORT : Nat := 8080

/-- `DIRECTORY = "Sources/GUI/Resources"` (serve-web.py line 14). -/
def DIRECTORY : String := "Sources/GUI/Resources"

/-- The literal `'/web/'` tested by `do_GET` (line 21). -/
def webRoute : Path := ['/', 'w', 'e', 'b', '/']

/-- The literal `'/api/'` tested by `do_POST` (line 29). -/
def apiRoute : Path := ['/', 'a', 'p', 'i', '/']

/-- The literal `'/'` that `do_GET` substitutes for `'/web/'` (line 23). -/
def slash : Path := ['/']

/-- Python's `s.startswith(pre)` on character lists. -/
def startswith : Path → Path → Bool
  | _, [] => true
  | [], _ :: _ => false
  | c :: s, d :: pre => if c = d then startswith s pre else false

/-- The scanning loop of Python's `s.replace(pat, rep)`, with explicit
fuel so that the recursion is structural: each step consumes one unit of
fuel and at least one character, so fuel `s.length` always suffices (see
`pyReplaceAux_fuel`).  At each position, a match of `pat` (nonempty) emits
`rep` and skips past the match; otherwise the character is kept. -/
def pyReplaceAux (pat rep : Path) : Nat → Path → Path
  | _, [] => []
  | 0, c :: rest => c :: rest
  | n + 1, c :: rest =>
    if pat ≠ [] ∧ startswith (c :: rest) pat = true then
      rep ++ pyReplaceAux pat rep n ((c :: rest).drop pat.length)
    else
      c :: pyReplaceAux pat rep n rest

/-- Python's `s.replace(pat, rep)` for a nonempty pattern: every
non-overlapping occurrence of `pat`, scanning left to right, is replaced
by `rep` (this is the semantics of `self.path.replace('/web/', '/')` on
line 23 — all occurrences, not just a leading one). -/
def pyReplace (pat rep s : Path) : Path := pyReplaceAux pat rep s.length s

/-- `true` when `pat` occurs as a contiguous substring of `s`. -/
def occurs (pat : Path) : Path → Bool
  | [] => startswith [] pat
  | c :: rest => startswith (c :: rest) pat || occurs pat rest

/-- An HTTP response: status code, optional `Content-type` header, body. -/
structure Response where
  status : Nat
  contentType : Option String
  body : String
deriving DecidableEq

/-- `self.send_error(code, message)` as called on lines 26 and 37.
Modelled from the spec: the standard-library `send_error` renders the
response; per the spec it is the given status code with a plain-text
reason body ("HTTP 404, plain text reason"). -/
def send_error (code : Nat) (message : String) : Response :=
  { status := code, contentType := none, body := message }

/-- A filesystem: a partial map from a resolved path (a list of path
segments, from the filesystem root) to file contents. -/
abbrev FS := List Path → Option String

/-- Split a character list on `'/'` into its segments. -/
def splitSlash : Path → List Path
  | [] => [[]]
  | c :: rest =>
    if c = '/' then [] :: splitSlash rest
    else
      match splitSlash rest with
      | [] => [[c]]
      | seg :: segs => (c :: seg) :: segs

/-- A path component that names a plain file or directory: not empty, not
`.`, not `..`.  All other components are discarded during resolution. -/
def isCleanSegment (seg : Path) : Bool :=
  seg ≠ ([] : Path) && seg ≠ ['.'] && seg ≠ ['.', '.']

/-- The segments of the fixed root directory `DIRECTORY`. -/
def rootSegments : List Path := splitSlash (str DIRECTORY)

/-- Modelled from the spec: the path resolution of the standard-library
`SimpleHTTPRequestHandler` (absent from this repository), which `do_GET`
delegates to on line 24 — "directory root resolution, …, no directory
traversal outside root".  The query and fragment are stripped, the path is
split on `/`, components that are empty, `.` or `..` are discarded, and
the remainder is resolved under the fixed root directory. -/
def translate_path (p : Path) : List Path :=
  rootSegments ++
    (splitSlash ((p.takeWhile (· ≠ '?')).takeWhile (· ≠ '#'))).filter
      (fun seg => isCleanSegment seg)

/-- Modelled from the spec: the static-file serving of the standard-library
`SimpleHTTPRequestHandler.do_GET` (absent from this repository): resolve
the path under the root directory, answer 200 with the file contents when
the file exists and 404 otherwise.  MIME-type inference by extension is
abstracted away (no claim mentions it). -/
def serveStatic (fs : FS) (p : Path) : Response :=
  match fs (translate_path p) with
  | some content => { status := 200, contentType := none, body := content }
  | none => send_error 404 "File not found"

/-- The exact body written on line 35:
`json.dumps({"error": "Swift backend not running. Use CLI instead: swift run alfred"})`. -/
def apiErrorBody : String :=
  "\x7b\"error\": \"Swift backend not running. Use CLI instead: swift run alfred\"\x7d"

/-- `AlfredHTTPRequestHandler.do_GET` (serve-web.py lines 20–26): if the
path starts with `'/web/'`, replace `'/web/'` by `'/'` (Python `replace`,
hence every occurrence) and serve the result as a static file; otherwise
`send_error(404, "Not found")`. -/
def do_GET (fs : FS) (path : Path) : Response :=
  if startswith path webRoute then
    serveStatic fs (pyReplace webRoute slash path)
  else
    send_error 404 "Not found"

/-- `AlfredHTTPRequestHandler.do_POST` (serve-web.py lines 28–37): if the
path starts with `'/api/'`, answer 503 with `Content-type:
application/json` and the fixed JSON body; otherwise
`send_error(404, "Not found")`.  The request body is a parameter that the
definition never inspects, mirroring that the handler never reads it. -/
def do_POST (fs : FS) (path : Path) (body : String) : Response :=
  if startswith path apiRoute then
    { status := 503, contentType := some "application/json", body := apiErrorBody }
  else
    send_error 404 "Not found"

/-- An HTTP request method. -/
inductive Method where
  | GET : Method
  | POST : Method
  | OTHER : String → Method
deriving DecidableEq

/-- An HTTP request: method, path, body. -/
structure Request where
  method : Method
  path : Path
  body : String
deriving DecidableEq

/-- Request dispatch of `AlfredHTTPRequestHandler`: GET goes to `do_GET`,
POST to `do_POST`.  Modelled from the spec for every other method: the
dispatch loop for methods without a handler lives in the standard-library
base class, absent from this repository; per the spec, "for anything else,
respond with a generic \"not found\" error". -/
def dispatch (fs : FS) (req : Request) : Response :=
  match req.method with
  | Method.GET => do_GET fs req.path
  | Method.POST => do_POST fs req.path req.body
  | Method.OTHER _ => send_error 404 "Not found"

/-- Serving a sequence of requests: each is handled by `dispatch` alone;
there is no state carried from one request to the next. -/
def serveAll (fs : FS) (reqs : List Request) : List Response :=
  reqs.map (dispatch fs)

/-- The TCP bind address of `socketserver.TCPServer(("", PORT),
AlfredHTTPRequestHandler)` (line 45): empty host, meaning all interfaces,
at `PORT`. -/
def serverAddress : String × Nat := ("", PORT)

/-- The empty filesystem, used to instantiate theorems at concrete inputs. -/
def emptyFS : FS := fun _ => none

/-- A filesystem holding exactly one file, `a/web/b` under the root
directory, with contents `"X"`. -/
def fsC1 : FS := fun k => if k = translate_path (str "/a/web/b") then some "X" else none

/-! ## Supporting lemmas -/

/-- When the pattern occurs nowhere in `s` and the fuel covers `s`, the
replacement loop leaves `s` alone. -/
lemma pyReplaceAux_no_occurs (pat rep : Path) :
    ∀ n s, occurs pat s = false → s.length ≤ n → pyReplaceAux pat rep n s = s := by
  intro n
  induction n with
  | zero =>
    intro s h hlen
    cases s with
    | nil => rfl
    | cons c rest => simp at hlen
  | succ n ih =>
    intro s h hlen
    cases s with
    | nil => rfl
    | cons c rest =>
      simp only [occurs, Bool.or_eq_false_iff] at h
      obtain ⟨h1, h2⟩ := h
      have hstep : pyReplaceAux pat rep (n + 1) (c :: rest) =
          c :: pyReplaceAux pat rep n rest := by
        simp only [pyReplaceAux]
        rw [if_neg]
        intro hcond
        rw [h1] at hcond
        exact Bool.false_ne_true hcond.2
      have hlen2 : rest.length ≤ n := by
        simp only [List.length_cons] at hlen
        omega
      rw [hstep, ih rest h2 hlen2]

/-- On a path that starts with `/web/` and contains no later occurrence of
`/web/`, the rewrite of line 23 removes exactly the leading `/web`
segment. -/
lemma pyReplace_strip (p : Path) (h : startswith p webRoute = true)
    (hocc : occurs webRoute (p.drop 5) = false) :
    pyReplace webRoute slash p = '/' :: p.drop 5 := by
  cases p with
  | nil => simp [startswith, webRoute] at h
  | cons c rest =>
    have hstep : pyReplace webRoute slash (c :: rest) =
        slash ++ pyReplaceAux webRoute slash rest.length ((c :: rest).drop 5) := by
      show pyReplaceAux webRoute slash (rest.length + 1) (c :: rest) = _
      simp only [pyReplaceAux]
      rw [if_pos ⟨by decide, h⟩]
      rfl
    have hlen : ((c :: rest).drop 5).length ≤ rest.length := by
      simp only [List.length_drop, List.length_cons]
      omega
    rw [hstep, pyReplaceAux_no_occurs webRoute slash rest.length ((c :: rest).drop 5) hocc hlen]
    rfl

/-! ## Claims -/

/-- C1, counterexample.  The claim says a GET under `/web/` serves the file
at the path with only the leading `/web` segment removed.  But line 23 uses
Python `replace`, which rewrites every occurrence of `/web/`.  With the file
`a/web/b` present under the root (contents `"X"`), a GET to `/web/a/web/b`
does not answer with the response for the stripped path `/a/web/b` (it
resolves `/a/b` instead and 404s). -/
theorem C1_counterexample :
    fsC1 (translate_path (str "/a/web/b")) = some "X" ∧
    do_GET fsC1 (str "/web/a/web/b") ≠ serveStatic fsC1 (str "/a/web/b") := by
  decide

/-- C1, amended.  For every GET whose path starts with `/web/`, the handler
serves the static file at the path with every occurrence of `/web/`
replaced by `/`; when `/web/` does not occur again after the leading
prefix, this coincides with removing only the leading `/web` segment, so
the GET returns the same response as the underlying static serve of the
stripped path. -/
theorem C1_web_rewrite (fs : FS) (p : Path) (h : startswith p webRoute = true) :
    do_GET fs p = serveStatic fs (pyReplace webRoute slash p) ∧
    (occurs webRoute (p.drop 5) = false →
      do_GET fs p = serveStatic fs ('/' :: p.drop 5)) := by
  have hrw : do_GET fs p = serveStatic fs (pyReplace webRoute slash p) := by
    simp [do_GET, h]
  refine ⟨hrw, fun hocc => ?_⟩
  rw [hrw, pyReplace_strip p h hocc]

/-- C1, witness for the amended theorem at the path `/web/index.html`. -/
theorem C1_web_rewrite_witness :
    (do_GET emptyFS (str "/web/index.html") =
       serveStatic emptyFS (pyReplace webRoute slash (str "/web/index.html"))) ∧
    (occurs webRoute ((str "/web/index.html").drop 5) = false →
      do_GET emptyFS (str "/web/index.html") =
        serveStatic emptyFS ('/' :: (str "/web/index.html").drop 5)) :=
  C1_web_rewrite emptyFS (str "/web/index.html") (by decide)

/-- C2: every POST whose path starts with `/api/` is answered with status
503, header `Content-type: application/json`, and the exact JSON body,
regardless of the sub-path and of the request body. -/
theorem C2_api_stub (fs : FS) (p : Path) (body : String)
    (h : startswith p apiRoute = true) :
    do_POST fs p body =
      { status := 503, contentType := some "application/json",
        body := "\x7b\"error\": \"Swift backend not running. Use CLI instead: swift run alfred\"\x7d" } := by
  simp [do_POST, h, apiErrorBody]

/-- C2, witness at `/api/anything` with a nonempty body. -/
theorem C2_api_stub_witness :
    do_POST emptyFS (str "/api/anything") "some ignored payload" =
      { status := 503, contentType := some "application/json",
        body := "\x7b\"error\": \"Swift backend not running. Use CLI instead: swift run alfred\"\x7d" } :=
  C2_api_stub emptyFS (str "/api/anything") "some ignored payload" (by decide)

/-- C3: every request that is not a GET under `/web/` and not a POST under
`/api/` is answered with the generic 404 "Not found" error (dispatch for
methods other than GET and POST is modelled from the spec, see
`dispatch`). -/
theorem C3_fallback_not_found (fs : FS) (req : Request)
    (hg : ¬ (req.method = Method.GET ∧ startswith req.path webRoute = true))
    (hp : ¬ (req.method = Method.POST ∧ startswith req.path apiRoute = true)) :
    dispatch fs req = send_error 404 "Not found" := by
  obtain ⟨m, p, b⟩ := req
  cases m with
  | GET =>
    have hw : startswith p webRoute = false := by
      cases hsw : startswith p webRoute
      · rfl
      · exact absurd ⟨rfl, hsw⟩ hg
    simp [dispatch, do_GET, hw]
  | POST =>
    have ha : startswith p apiRoute = false := by
      cases hsw : startswith p apiRoute
      · rfl
      · exact absurd ⟨rfl, hsw⟩ hp
    simp [dispatch, do_POST, ha]
  | OTHER name =>
    simp [dispatch]

/-- C3, witness: a PUT request is answered 404. -/
theorem C3_fallback_not_found_witness :
    dispatch emptyFS { method := Method.OTHER "PUT", path := str "/anything", body := "" } =
      send_error 404 "Not found" :=
  C3_fallback_not_found emptyFS
    { method := Method.OTHER "PUT", path := str "/anything", body := "" }
    (by decide) (by decide)

/-- C4: every GET whose path does not start with `/web/` is answered
HTTP 404 with the plain "Not found" body. -/
theorem C4_get_not_web (fs : FS) (p : Path) (h : startswith p webRoute = false) :
    do_GET fs p = send_error 404 "Not found" := by
  simp [do_GET, h]

/-- C4, witness at `/favicon.ico`. -/
theorem C4_get_not_web_witness :
    do_GET emptyFS (str "/favicon.ico") = send_error 404 "Not found" :=
  C4_get_not_web emptyFS (str "/favicon.ico") (by decide)

/-- C5: every POST whose path does not start with `/api/` is answered
HTTP 404 with the plain "Not found" body. -/
theorem C5_post_not_api (fs : FS) (p : Path) (body : String)
    (h : startswith p apiRoute = false) :
    do_POST fs p body = send_error 404 "Not found" := by
  simp [do_POST, h]

/-- C5, witness at `/other`. -/
theorem C5_post_not_api_witness :
    do_POST emptyFS (str "/other") "body" = send_error 404 "Not found" :=
  C5_post_not_api emptyFS (str "/other") "body" (by decide)

/-- C6: the POST handler never inspects the request body — two POST
requests with the same path and different bodies receive identical
responses, both at the handler and through dispatch. -/
theorem C6_body_ignored (fs : FS) (p : Path) (b₁ b₂ : String) :
    do_POST fs p b₁ = do_POST fs p b₂ ∧
    dispatch fs { method := Method.POST, path := p, body := b₁ } =
      dispatch fs { method := Method.POST, path := p, body := b₂ } :=
  ⟨rfl, rfl⟩

/-- C7: for every GET under `/web/`, the resolved filesystem path always
extends the fixed root directory and consists only of clean components (in
particular no `..`, hence no directory traversal outside the root), and an
absent file is answered HTTP 404. -/
theorem C7_no_traversal (fs : FS) (p : Path) (h : startswith p webRoute = true) :
    (∃ rel, translate_path (pyReplace webRoute slash p) = rootSegments ++ rel ∧
        ∀ seg ∈ rel, isCleanSegment seg = true) ∧
    (fs (translate_path (pyReplace webRoute slash p)) = none →
        do_GET fs p = send_error 404 "File not found") := by
  constructor
  · refine ⟨_, rfl, fun seg hseg => ?_⟩
    exact (List.mem_filter.mp hseg).2
  · intro habs
    simp [do_GET, h, serveStatic, habs]

/-- C7, witness at the traversal attempt `/web/../../etc/passwd`. -/
theorem C7_no_traversal_witness :
    (∃ rel, translate_path (pyReplace webRoute slash (str "/web/../../etc/passwd")) =
        rootSegments ++ rel ∧ ∀ seg ∈ rel, isCleanSegment seg = true) ∧
    (emptyFS (translate_path (pyReplace webRoute slash (str "/web/../../etc/passwd"))) = none →
        do_GET emptyFS (str "/web/../../etc/passwd") = send_error 404 "File not found") :=
  C7_no_traversal emptyFS (str "/web/../../etc/passwd") (by decide)

/-- C8: the server binds TCP on all interfaces (empty host) at the fixed
port 8080, and the configuration constants are the fixed values. -/
theorem C8_fixed_config :
    serverAddress = ("", 8080) ∧ PORT = 8080 ∧ DIRECTORY = "Sources/GUI/Resources" :=
  ⟨rfl, rfl, rfl⟩

/-- C9: requests are served independently and statelessly — the response
at position `i` of a served request sequence is a pure function of request
`i` alone (so an earlier 404 or 503 cannot affect it), and the response
depends only on the method, the path and the filesystem, never on the
request body. -/
theorem C9_stateless (fs : FS) (reqs : List Request) (i : Nat) :
    (serveAll fs reqs)[i]? = (reqs[i]?).map (dispatch fs) ∧
    (∀ m p b₁ b₂, dispatch fs { method := m, path := p, body := b₁ } =
        dispatch fs { method := m, path := p, body := b₂ }) := by
  constructor
  · simp [serveAll]
  · intro m p b₁ b₂
    cases m <;> rfl

/-- C10: a GET to the path exactly `/web` (no trailing slash) does not
start with `/web/`, so it is answered 404 "Not found" for every
filesystem. -/
theorem C10_web_no_slash (fs : FS) :
    do_GET fs (str "/web") = send_error 404 "Not found" := by
  have h : startswith (str "/web") webRoute = false := by decide
  simp [do_GET, h]

end Alfred
